import Mathlib

/-!
Verification development for the MoodFlow bot reply core (src/app.py).

The Python source is shallowly embedded below.  Conventions used
throughout:

* Machine text is `String` / `List Char`.  Python `str.lower` is
  modelled on the ASCII range (identity elsewhere); every decision
  boundary exercised by the claims involves only ASCII letters or
  caseless Japanese characters, so this restriction is faithful on the
  inputs of interest.
* `unicodedata.normalize("NFKC", ...)` is modelled character by
  character for the compatibility characters that actually occur in the
  repository (full-width punctuation, half-width katakana); it is the
  identity elsewhere.
* Wall-clock times are `Int` (the code only ever subtracts two times
  and compares with a TTL).  Latitude/longitude are `Rat`; the Python
  `round(x, 4)` is modelled as exact half-even rounding to 4 decimals.
* Side effects are made explicit: cache-fronted fetchers take the cache
  as an argument and return the new cache together with a Bool that
  records whether the underlying HTTP fetch was invoked; the retry loop
  takes the network as an oracle `attempt-index → timeout → Option J`
  and returns (result, attempts made, sleeps performed).
-/

/-- Python `str.lower` restricted to ASCII, identity on other characters. -/
def pyLowerChar (c : Char) : Char :=
  if 'A' ≤ c ∧ c ≤ 'Z' then Char.ofNat (c.toNat + 32) else c

def pyLower (s : String) : String :=
  String.mk (s.toList.map pyLowerChar)

/-- Characters removed by Python `str.strip` (ASCII whitespace). -/
def isPyWs (c : Char) : Bool :=
  c = ' ' || c = '\t' || c = '\n' || c = '\r' || c = '\x0b' || c = '\x0c'

def pyStrip (s : String) : String :=
  String.mk (((s.toList.dropWhile isPyWs).reverse.dropWhile isPyWs).reverse)

/-- NFKC normalization, modelled on the compatibility characters used by
the repository (full-width exclamation/question mark, ideographic space,
half-width katakana of the lexicon); identity on all other characters. -/
def nfkcChar (c : Char) : List Char :=
  if c = '！' then ['!']
  else if c = '？' then ['?']
  else if c = '　' then [' ']
  else if c = 'ﾜ' then ['ワ']
  else if c = 'ｸ' then ['ク']
  else [c]

def nfkcNorm (s : List Char) : List Char :=
  (s.map nfkcChar).flatten

/-- `listLeads w s` holds when `w` is an initial segment of `s`. -/
def listLeads : List Char → List Char → Bool
  | [], _ => true
  | _ :: _, [] => false
  | a :: w, b :: s => a = b && listLeads w s

/-- Python substring containment `w in s`. -/
def listOccurs (w : List Char) : List Char → Bool
  | [] => listLeads w []
  | c :: rest => listLeads w (c :: rest) || listOccurs w rest

/-- Python `s.count(w)`: non-overlapping occurrences, scanning left to
right.  The fuel argument (initially `s.length`) makes the recursion
structural; each step consumes one fuel and strictly shortens the list,
so the fuel never runs out. -/
def countOccsAux (w : List Char) : Nat → List Char → Nat
  | 0, _ => 0
  | _ + 1, [] => 0
  | fuel + 1, c :: rest =>
    if w.length ≠ 0 ∧ listLeads w (c :: rest) = true then
      1 + countOccsAux w fuel (List.drop (w.length - 1) rest)
    else
      countOccsAux w fuel rest

def countOccs (w s : List Char) : Nat :=
  countOccsAux w s.length s

/-- src/app.py lines 55-59. -/
def time_block (hour : Nat) : String :=
  if 5 ≤ hour ∧ hour < 12 then "morning"
  else if 12 ≤ hour ∧ hour < 18 then "day"
  else if 18 ≤ hour ∧ hour < 23 then "evening"
  else "night"

/-- src/app.py lines 61-65. -/
def season (month : Nat) : String :=
  if month = 12 ∨ month = 1 ∨ month = 2 then "winter"
  else if month = 3 ∨ month = 4 ∨ month = 5 then "spring"
  else if month = 6 ∨ month = 7 ∨ month = 8 then "summer"
  else "autumn"

/-- src/app.py lines 67-68 (Mon=0 ... Sun=6). -/
def is_weekend (weekday : Nat) : Bool :=
  weekday = 5 || weekday = 6

/-- src/app.py lines 184-194: the emotion lexicon, in dict insertion order. -/
def EMO_LEXICON : List (String × List String) :=
  [ ("joy",      ["うれ", "嬉", "楽しい", "最高", "やった", "わくわく", "ﾜｸﾜｸ", "良かった", "😍", "🥳", "✨"]),
    ("grateful", ["ありがとう", "感謝", "助か", "サンキュー", "🙏"]),
    ("sad",      ["さみ", "寂", "つら", "辛", "悲しい", "泣", "落ち込", "しんど", "最悪", "😭", "😢", "😞"]),
    ("angry",    ["怒", "ムカ", "腹立", "イライラ", "許せ", "💢", "😡"]),
    ("anxious",  ["不安", "こわ", "怖", "緊張", "心配", "焦り", "ドキドキ", "😰", "😱"]),
    ("tired",    ["疲れ", "ねむ", "眠", "だる", "限界", "バテ", "ぐったり", "😴", "💤"]),
    ("calm",     ["落ち着", "静か", "まったり", "穏や", "ほっと", "安ら", "☺️"]),
    ("excited",  ["楽しみ", "テンション", "やるぞ", "燃える", "🔥", "！"]),
    ("lonely",   ["ひとり", "独り", "孤独", "さみ", "誰も", "🥺"]) ]

/-- The normalized text used by `detect_emotion`:
`unicodedata.normalize("NFKC", text.lower())`. -/
def normText (text : String) : List Char :=
  nfkcNorm (pyLower text).toList

/-- One tag score from the keyword loop of src/app.py lines 213-216:
`if w and w in norm: score[tag] += 1`. -/
def tagBaseScore (norm : List Char) (words : List String) : Nat :=
  (words.filter (fun w => (w != "") && listOccurs w.toList norm)).length

/-- `norm.count("!") + norm.count("！")` (src/app.py line 219). -/
def exclCount (norm : List Char) : Nat :=
  countOccs ['!'] norm + countOccs ['！'] norm

/-- `norm.count("…") + norm.count("...") + norm.count("。。")` (line 222). -/
def ellipsisCount (norm : List Char) : Nat :=
  countOccs ['…'] norm + countOccs ['.', '.', '.'] norm + countOccs ['。', '。'] norm

/-- The full score table of `detect_emotion` after the two heuristic
adjustments, in dict insertion order. -/
def scoresOf (text : String) : List (String × Nat) :=
  let norm := normText text
  EMO_LEXICON.map (fun p =>
    (p.1, tagBaseScore norm p.2
      + (if p.1 = "excited" ∧ 2 ≤ exclCount norm then 1 else 0)
      + (if p.1 = "tired" ∧ 1 ≤ ellipsisCount norm then 1 else 0)))

/-- Python `max(score, key=score.get)`: the first key attaining the
maximum value, in iteration (= insertion) order. -/
def argmaxFirst (l : List (String × Nat)) : String × Nat :=
  match l with
  | [] => ("", 0)
  | p :: rest => rest.foldl (fun best q => if best.2 < q.2 then q else best) p

/-- src/app.py lines 207-227. -/
def detect_emotion (text : String) : Option String :=
  if text = "" then none
  else
    let best := argmaxFirst (scoresOf text)
    if 0 < best.2 then some best.1 else none

/-- src/app.py lines 229-236.  A `some ""` tag is falsy in Python and is
treated like `none`. -/
def emotion_to_block_override (tag : Option String) (current_block : String) : String :=
  match tag with
  | none => current_block
  | some t =>
    if t = "" then current_block
    else if t = "sad" ∨ t = "tired" ∨ t = "lonely" ∨ t = "anxious" then "night"
    else if t = "excited" ∨ t = "joy" then "day"
    else current_block

/-! ## HTTP retry loop (src/app.py lines 36-37, 94-102) -/

def HTTP_TIMEOUT : Nat := 6

def RETRY : Nat := 2

/-- One pass of the `for _ in range(RETRY + 1)` loop of `http_get_json`.
The network is an oracle `g` mapping (attempt index, timeout) to the
attempt outcome (`none` = the request raised).  Returns (overall result,
attempts made, sleeps performed): on an exception the code sleeps 0.6s
and continues, so every failed attempt — the last one included —
contributes one sleep. -/
def httpLoop {J : Type} (g : Nat → Nat → Option J) : Nat → Nat → Option J × Nat × Nat
  | 0, _ => (none, 0, 0)
  | n + 1, i =>
    match g i HTTP_TIMEOUT with
    | some r => (some r, 1, 0)
    | none =>
      let rest := httpLoop g n (i + 1)
      (rest.1, rest.2.1 + 1, rest.2.2 + 1)

/-- src/app.py lines 94-102. -/
def http_get_json {J : Type} (g : Nat → Nat → Option J) : Option J × Nat × Nat :=
  httpLoop g (RETRY + 1) 0

/-! ## TTL caches (src/app.py lines 40-43, 104-143) -/

def WEATHER_TTL : Int := 10 * 60

def GEOCODE_TTL : Int := 24 * 60 * 60

/-- Exact round-half-to-even, the idealization of Python round. -/
def roundHalfEven (x : ℚ) : ℤ :=
  let f : ℤ := Rat.floor x
  let r : ℚ := x - (f : ℚ)
  if r < 1 / 2 then f
  else if 1 / 2 < r then f + 1
  else if f % 2 = 0 then f else f + 1

/-- Python `round(x, 4)` idealized over the rationals. -/
def pyRound4 (x : ℚ) : ℚ :=
  ((roundHalfEven (x * 10000) : ℤ) : ℚ) / 10000

structure WeatherRes where
  tag : String
  desc : String
  temp : Int
  city : String
deriving DecidableEq

structure GeoItem where
  lat : ℚ
  lon : ℚ
  name : Option String
deriving DecidableEq

structure GeoRes where
  lat : ℚ
  lon : ℚ
  city : String
deriving DecidableEq

abbrev WCache := ℚ × ℚ → Option (Int × WeatherRes)

abbrev GCache := String → Option (Int × GeoRes)

/-- `key = (round(lat, 4), round(lon, 4))` (src/app.py line 107). -/
def wkey (lat lon : ℚ) : ℚ × ℚ :=
  (pyRound4 lat, pyRound4 lon)

/-- `k = q.strip().lower()` (src/app.py line 130). -/
def gkey (q : String) : String :=
  pyLower (pyStrip q)

/-- src/app.py lines 104-125.  State passing is explicit: `cache` is the
module-level `_weather_cache`, `now` is `time.time()`, and `fetched`
abstracts `http_get_json(url)` followed by the JSON field extraction
(`none` covers both a failed fetch and falsy data).  The returned Bool
records whether the underlying fetch was invoked. -/
def get_weather_by_latlon (hasApiKey : Bool) (now : Int) (cache : WCache)
    (lat lon : ℚ) (fetched : Option WeatherRes) :
    Option WeatherRes × WCache × Bool :=
  if !hasApiKey then (none, cache, false)
  else
    let key := wkey lat lon
    let doFetch : Option WeatherRes × WCache × Bool :=
      match fetched with
      | none => (none, cache, true)
      | some res =>
        (some res, fun k => if k = key then some (now, res) else cache k, true)
    match cache key with
    | some (t, v) => if now - t < WEATHER_TTL then (some v, cache, false) else doFetch
    | none => doFetch

/-- src/app.py lines 127-143, with the same conventions as
`get_weather_by_latlon`.  `fetched` abstracts `http_get_json(url)`
returning a JSON array of geocoding candidates; an empty array means
"no match" and is not cached. -/
def geocode_city (hasApiKey : Bool) (now : Int) (cache : GCache)
    (q : String) (fetched : Option (List GeoItem)) :
    Option GeoRes × GCache × Bool :=
  if !hasApiKey then (none, cache, false)
  else
    let k := gkey q
    let doFetch : Option GeoRes × GCache × Bool :=
      match fetched with
      | none => (none, cache, true)
      | some [] => (none, cache, true)
      | some (top :: _) =>
        let res : GeoRes := ⟨top.lat, top.lon, top.name.getD q⟩
        (some res, fun s => if s = k then some (now, res) else cache s, true)
    match cache k with
    | some (t, v) => if now - t < GEOCODE_TTL then (some v, cache, false) else doFetch
    | none => doFetch

/-! ## Persisted user-location store (src/app.py lines 78-85, 361-374) -/

structure UserLoc where
  lat : ℚ
  lon : ℚ
  city : String
deriving DecidableEq

abbrev Store := String → Option UserLoc

def emptyStore : Store := fun _ => none

/-- The on-disk state of `user_store.json` as `load_store` can see it:
missing file, a file whose read raises, or readable text. -/
inductive StoreFile where
  | absent : StoreFile
  | unreadable : StoreFile
  | content : String → StoreFile

/-- src/app.py lines 78-85.  `parse` abstracts `json.loads` (`none` =
the parse raised).  An unreadable file raises inside the `try` block and
is caught by the same `except`. -/
def load_store (file : StoreFile) (parse : String → Option Store) : Store :=
  match file with
  | .absent => emptyStore
  | .unreadable => emptyStore
  | .content s =>
    match parse s with
    | some st => st
    | none => emptyStore

/-! ## The `loc` command branch of `handle_text` (src/app.py lines 409-420) -/

/-- The part of `s` after the first `sep`, or all of `s` when `sep` does
not occur: Python `s.split(sep, 1)[-1]`. -/
def splitFirstTail (sep : Char) (s : List Char) : List Char :=
  match s with
  | [] => []
  | c :: rest => if c = sep then rest else
      if rest.contains sep then splitFirstTail sep rest else c :: rest

/-- `low.startswith(("loc ", "loc:"))` after `text.strip()` / `.lower()`
(src/app.py lines 379, 383, 409). -/
def isLocCmd (rawText : String) : Bool :=
  let low := pyLower (pyStrip rawText)
  listLeads "loc ".toList low.toList || listLeads "loc:".toList low.toList

/-- `q = text.split(" ", 1)[-1].split(":", 1)[-1].strip()` (line 410). -/
def locQuery (rawText : String) : String :=
  pyStrip (String.mk (splitFirstTail ':' (splitFirstTail ' ' (pyStrip rawText).toList)))

/-- The `loc` branch of `handle_text` (src/app.py lines 409-420), as a
function of the inbound message text, the user id, the loaded store and
the geocode-cache state.  Returns `none` when the branch is not taken;
otherwise (reply text, store after the branch, whether `save_store` was
called, geocode cache after the branch).  The earlier help/status
branches cannot fire on a `loc`-prefixed text, so the guard below is
exactly the dispatch condition. -/
def handle_loc (rawText uid : String) (store : Store) (hasApiKey : Bool)
    (now : Int) (gcache : GCache) (fetched : Option (List GeoItem)) :
    Option (String × Store × Bool × GCache) :=
  if isLocCmd rawText then
    let q := locQuery rawText
    let g := geocode_city hasApiKey now gcache q fetched
    match g.1 with
    | some geo =>
      some ("📍 場所を「" ++ geo.city ++ "」に設定しました。",
        fun u => if u = uid then some ⟨geo.lat, geo.lon, geo.city⟩ else store u,
        true, g.2.1)
    | none =>
      some ("位置を見つけられませんでした。例：`loc 東京` と送ってください。",
        store, false, g.2.1)
  else none

/-! ## Theorems -/

/-- Claim C3: the temporal classifier assigns exactly one time block —
morning for hours in [5,12), day for [12,18), evening for [18,23), night
otherwise — so the four blocks partition all 24 hours; every month in
1..12 maps to exactly one season ({12,1,2}=winter, {3,4,5}=spring,
{6,7,8}=summer, else autumn); and the weekend flag holds exactly for
Saturday (5) and Sunday (6). -/
theorem temporal_classifier_partition :
    (∀ h, h < 24 →
      (time_block h = "morning" ↔ (5 ≤ h ∧ h < 12)) ∧
      (time_block h = "day" ↔ (12 ≤ h ∧ h < 18)) ∧
      (time_block h = "evening" ↔ (18 ≤ h ∧ h < 23)) ∧
      (time_block h = "night" ↔ (h < 5 ∨ 23 ≤ h)))
    ∧ (∀ m, 1 ≤ m → m ≤ 12 →
      (season m = "winter" ↔ (m = 12 ∨ m = 1 ∨ m = 2)) ∧
      (season m = "spring" ↔ (m = 3 ∨ m = 4 ∨ m = 5)) ∧
      (season m = "summer" ↔ (m = 6 ∨ m = 7 ∨ m = 8)) ∧
      (season m = "autumn" ↔ (9 ≤ m ∧ m ≤ 11)))
    ∧ (∀ w, w < 7 → (is_weekend w = true ↔ (w = 5 ∨ w = 6))) := by
  refine ⟨?_, ?_, ?_⟩ <;> decide

/-- Witness for C3 at concrete boundary inputs. -/
theorem temporal_classifier_partition_witness :
    time_block 5 = "morning" ∧ season 12 = "winter" ∧ is_weekend 5 = true :=
  ⟨((temporal_classifier_partition.1 5 (by decide)).1).mpr (by decide),
   ((temporal_classifier_partition.2.1 12 (by decide) (by decide)).1).mpr (by decide),
   (temporal_classifier_partition.2.2 5 (by decide)).mpr (by decide)⟩

/-- Claim C4: the recommendation selector forces the night (soothing)
bucket for tags sad/tired/lonely/anxious regardless of the supplied
block, the day (energetic) bucket for joy/excited, and leaves the block
unchanged for any other tag or when no tag is present. -/
theorem emotion_override_spec :
    (∀ (block tag : String), tag ∈ ["sad", "tired", "lonely", "anxious"] →
      emotion_to_block_override (some tag) block = "night")
    ∧ (∀ (block tag : String), tag = "joy" ∨ tag = "excited" →
      emotion_to_block_override (some tag) block = "day")
    ∧ (∀ block : String, emotion_to_block_override none block = block)
    ∧ (∀ (block tag : String),
        tag ∉ ["sad", "tired", "lonely", "anxious", "joy", "excited"] →
        emotion_to_block_override (some tag) block = block) := by
  refine ⟨?_, ?_, ?_, ?_⟩
  · intro block tag htag
    fin_cases htag <;> rfl
  · intro block tag htag
    rcases htag with rfl | rfl <;> rfl
  · intro block; rfl
  · intro block tag htag
    simp only [List.mem_cons, List.not_mem_nil, or_false, not_or] at htag
    obtain ⟨h1, h2, h3, h4, h5, h6⟩ := htag
    simp only [emotion_to_block_override]
    split_ifs with g1 g2 g3
    · rfl
    · rcases g2 with rfl | rfl | rfl | rfl <;> simp_all
    · rcases g3 with rfl | rfl <;> simp_all
    · rfl

/-- Witness for C4: a tired tag forces the night bucket from morning. -/
theorem emotion_override_spec_witness :
    emotion_to_block_override (some "tired") "morning" = "night" :=
  emotion_override_spec.1 "morning" "tired" (by decide)

/-- Claim C9: loading the persisted store never raises: a missing file,
an unreadable file, and malformed content all load as the empty map. -/
theorem load_store_total (parse : String → Option Store) :
    load_store .absent parse = emptyStore
    ∧ load_store .unreadable parse = emptyStore
    ∧ (∀ s, parse s = none → load_store (.content s) parse = emptyStore) := by
  refine ⟨rfl, rfl, ?_⟩
  intro s hs
  simp [load_store, hs]

/-- Witness for C9: a parse failure on concrete content loads as empty. -/
theorem load_store_total_witness :
    load_store (.content "not json") (fun _ => none) = emptyStore :=
  (load_store_total (fun _ => none)).2.2 "not json" rfl

/-- Helper: the running-best fold of `argmaxFirst` keeps its seed when
nothing in the list beats it strictly. -/
theorem foldl_best_keep (rest : List (String × Nat)) :
    ∀ p : String × Nat, (∀ q ∈ rest, q.2 ≤ p.2) →
      rest.foldl (fun best q => if best.2 < q.2 then q else best) p = p := by
  induction rest with
  | nil => intro p _; rfl
  | cons q rest ih =>
    intro p h
    have hq : q.2 ≤ p.2 := h q (List.mem_cons_self q rest)
    simp only [List.foldl_cons]
    rw [if_neg (by omega)]
    exact ih p (fun r hr => h r (List.mem_cons_of_mem q hr))

/-- Helper: the running best is 0 exactly when the seed and every list
element are 0. -/
theorem foldl_best_eq_zero (rest : List (String × Nat)) :
    ∀ p : String × Nat,
      (rest.foldl (fun best q => if best.2 < q.2 then q else best) p).2 = 0 ↔
        p.2 = 0 ∧ ∀ q ∈ rest, q.2 = 0 := by
  induction rest with
  | nil => intro p; simp
  | cons q rest ih =>
    intro p
    simp only [List.foldl_cons, List.mem_cons]
    rw [ih]
    by_cases h : p.2 < q.2
    · rw [if_pos h]
      constructor
      · rintro ⟨hq, _⟩
        exact absurd hq (by omega)
      · rintro ⟨_, hall⟩
        exact absurd (hall q (Or.inl rfl)) (by omega)
    · rw [if_neg h]
      constructor
      · rintro ⟨hp, hrest⟩
        refine ⟨hp, ?_⟩
        rintro r (rfl | hr)
        · omega
        · exact hrest r hr
      · rintro ⟨hp, hall⟩
        exact ⟨hp, fun r hr => hall r (Or.inr hr)⟩

/-- Helper: the fold lands on `e` when everything before `e` is strictly
below it, the seed included, and everything after is at most it. -/
theorem foldl_best_split (l1 : List (String × Nat)) :
    ∀ (e : String × Nat) (l2 : List (String × Nat)) (p : String × Nat),
      p.2 < e.2 → (∀ x ∈ l1, x.2 < e.2) → (∀ x ∈ l2, x.2 ≤ e.2) →
      (l1 ++ e :: l2).foldl (fun best q => if best.2 < q.2 then q else best) p = e := by
  induction l1 with
  | nil =>
    intro e l2 p hp _ h2
    simp only [List.nil_append, List.foldl_cons]
    rw [if_pos hp]
    exact foldl_best_keep l2 e h2
  | cons a l1 ih =>
    intro e l2 p hp h1 h2
    simp only [List.cons_append, List.foldl_cons]
    have ha : a.2 < e.2 := h1 a (List.mem_cons_self a l1)
    by_cases hpa : p.2 < a.2
    · rw [if_pos hpa]
      exact ih e l2 a ha (fun x hx => h1 x (List.mem_cons_of_mem a hx)) h2
    · rw [if_neg hpa]
      exact ih e l2 p hp (fun x hx => h1 x (List.mem_cons_of_mem a hx)) h2

/-- Helper: `argmaxFirst` on a nonempty list is 0 exactly when every
element is 0. -/
theorem argmaxFirst_eq_zero (l : List (String × Nat)) (hne : l ≠ []) :
    (argmaxFirst l).2 = 0 ↔ ∀ p ∈ l, p.2 = 0 := by
  cases l with
  | nil => exact absurd rfl hne
  | cons p rest =>
    simp only [argmaxFirst]
    rw [foldl_best_eq_zero]
    simp [List.forall_mem_cons]

/-- Helper: `argmaxFirst` returns the earliest element attaining the
maximum. -/
theorem argmaxFirst_split (l1 : List (String × Nat)) (e : String × Nat)
    (l2 : List (String × Nat))
    (h1 : ∀ x ∈ l1, x.2 < e.2) (h2 : ∀ x ∈ l2, x.2 ≤ e.2) :
    argmaxFirst (l1 ++ e :: l2) = e := by
  cases l1 with
  | nil =>
    simp only [List.nil_append, argmaxFirst]
    exact foldl_best_keep l2 e h2
  | cons a l1 =>
    simp only [List.cons_append, argmaxFirst]
    exact foldl_best_split l1 e l2 a (h1 a (List.mem_cons_self a l1))
      (fun x hx => h1 x (List.mem_cons_of_mem a hx)) h2

/-- Claim C6: the emotion scorer reports no emotion exactly when every
tag score (keyword counts plus the punctuation adjustments) is 0; in
particular the empty text reports none. -/
theorem detect_emotion_none_iff (text : String) :
    detect_emotion text = none ↔ ∀ p ∈ scoresOf text, p.2 = 0 := by
  by_cases hempty : text = ""
  · subst hempty
    exact iff_of_true rfl (by decide)
  · have hnil : scoresOf text ≠ [] := by simp [scoresOf, EMO_LEXICON]
    have hA := argmaxFirst_eq_zero (scoresOf text) hnil
    simp only [detect_emotion, if_neg hempty]
    by_cases hb : 0 < (argmaxFirst (scoresOf text)).2
    · rw [if_pos hb]
      constructor
      · intro h; cases h
      · intro h
        exact absurd (hA.mpr h) (by omega)
    · rw [if_neg hb]
      exact iff_of_true rfl (hA.mp (by omega))

/-- Witness for C6: the empty text reports no emotion. -/
theorem detect_emotion_none_iff_witness : detect_emotion "" = none :=
  (detect_emotion_none_iff "").mpr (by decide)

/-- Claim C10: the emotion scorer is deterministic and, whenever several
tags tie for the maximum positive score, returns the earliest of them in
the lexicon insertion order joy, grateful, sad, angry, anxious, tired,
calm, excited, lonely: decomposing the score table as `l1 ++ e :: l2`
with every entry of `l1` strictly below `e` and every entry of `l2` at
most `e`, the result is the tag of `e`. -/
theorem detect_emotion_tiebreak (text : String) (l1 l2 : List (String × Nat))
    (e : String × Nat) (hsplit : scoresOf text = l1 ++ e :: l2)
    (h1 : ∀ x ∈ l1, x.2 < e.2) (h2 : ∀ x ∈ l2, x.2 ≤ e.2) (hpos : 0 < e.2) :
    detect_emotion text = some e.1 := by
  have hne : text ≠ "" := by
    intro h
    subst h
    have he : e ∈ scoresOf "" := by
      rw [hsplit]
      exact List.mem_append_right _ (List.mem_cons_self e l2)
    have hall : ∀ x ∈ scoresOf "", x.2 = 0 := by decide
    exact absurd (hall e he) (by omega)
  simp only [detect_emotion, if_neg hne, hsplit]
  rw [argmaxFirst_split l1 e l2 h1 h2, if_pos hpos]

/-- Witness for C10: the text 嬉 感謝 scores 1 for both joy and grateful
(a tie at the maximum) and the scorer returns joy, the earlier tag. -/
theorem detect_emotion_tiebreak_witness : detect_emotion "嬉 感謝" = some "joy" :=
  detect_emotion_tiebreak "嬉 感謝" []
    [("grateful", 1), ("sad", 0), ("angry", 0), ("anxious", 0), ("tired", 0),
     ("calm", 0), ("excited", 0), ("lonely", 0)]
    ("joy", 1) (by decide) (by decide) (by decide) (by decide)

/-- Helper: a tag whose keywords all miss the text scores 0. -/
theorem tagBaseScore_zero (norm : List Char) (words : List String)
    (h : ∀ w ∈ words, listOccurs w.toList norm = false) :
    tagBaseScore norm words = 0 := by
  simp only [tagBaseScore, List.length_eq_zero]
  rw [List.filter_eq_nil_iff]
  intro a ha
  simp only [Bool.and_eq_true, bne_iff_ne, ne_eq, not_and]
  intro _
  simp only [Bool.not_eq_true]
  exact h a ha

/-- Helper: a tag with a nonempty keyword occurring in the text scores
at least 1. -/
theorem tagBaseScore_pos (norm : List Char) (words : List String) (w : String)
    (hw : w ∈ words) (hne : w ≠ "") (hocc : listOccurs w.toList norm = true) :
    1 ≤ tagBaseScore norm words := by
  have hmem : w ∈ words.filter (fun x => (x != "") && listOccurs x.toList norm) :=
    List.mem_filter.mpr ⟨hw, by
      simp only [Bool.and_eq_true, bne_iff_ne, ne_eq]
      exact ⟨hne, hocc⟩⟩
  exact List.length_pos_of_mem hmem

/-- Claim C5: any text whose normalized form contains a keyword of the
grateful lexicon, no keyword of any other tag, fewer than two
exclamation marks and no ellipsis marker is scored grateful. -/
theorem grateful_only_detects_grateful (text : String)
    (hg : ∃ p ∈ EMO_LEXICON, p.1 = "grateful" ∧
      ∃ w ∈ p.2, listOccurs w.toList (normText text) = true)
    (hother : ∀ p ∈ EMO_LEXICON, p.1 ≠ "grateful" →
      ∀ w ∈ p.2, listOccurs w.toList (normText text) = false)
    (hex : exclCount (normText text) < 2)
    (hell : ellipsisCount (normText text) = 0) :
    detect_emotion text = some "grateful" := by
  obtain ⟨p, hp, hp1, w, hwp, hocc⟩ := hg
  fin_cases hp <;> try exact absurd hp1 (by decide)
  have hwne : w ≠ "" :=
    (by decide : ∀ x ∈ ["ありがとう", "感謝", "助か", "サンキュー", "🙏"], x ≠ "") w hwp
  have hG : 1 ≤ tagBaseScore (normText text) ["ありがとう", "感謝", "助か", "サンキュー", "🙏"] :=
    tagBaseScore_pos _ _ w hwp hwne hocc
  have hne : text ≠ "" := by
    intro h
    rw [h] at hG
    have h0 : tagBaseScore (normText "") ["ありがとう", "感謝", "助か", "サンキュー", "🙏"] = 0 := by
      decide
    omega
  have hnex : ¬ (2 ≤ exclCount (normText text)) := by omega
  have hnell : ¬ (1 ≤ ellipsisCount (normText text)) := by omega
  have hJ := tagBaseScore_zero (normText text) _
    (hother ("joy", ["うれ", "嬉", "楽しい", "最高", "やった", "わくわく", "ﾜｸﾜｸ", "良かった", "😍", "🥳", "✨"])
      (by decide) (by decide))
  have hS := tagBaseScore_zero (normText text) _
    (hother ("sad", ["さみ", "寂", "つら", "辛", "悲しい", "泣", "落ち込", "しんど", "最悪", "😭", "😢", "😞"])
      (by decide) (by decide))
  have hA := tagBaseScore_zero (normText text) _
    (hother ("angry", ["怒", "ムカ", "腹立", "イライラ", "許せ", "💢", "😡"]) (by decide) (by decide))
  have hX := tagBaseScore_zero (normText text) _
    (hother ("anxious", ["不安", "こわ", "怖", "緊張", "心配", "焦り", "ドキドキ", "😰", "😱"])
      (by decide) (by decide))
  have hT := tagBaseScore_zero (normText text) _
    (hother ("tired", ["疲れ", "ねむ", "眠", "だる", "限界", "バテ", "ぐったり", "😴", "💤"])
      (by decide) (by decide))
  have hC := tagBaseScore_zero (normText text) _
    (hother ("calm", ["落ち着", "静か", "まったり", "穏や", "ほっと", "安ら", "☺️"]) (by decide) (by decide))
  have hE := tagBaseScore_zero (normText text) _
    (hother ("excited", ["楽しみ", "テンション", "やるぞ", "燃える", "🔥", "！"]) (by decide) (by decide))
  have hL := tagBaseScore_zero (normText text) _
    (hother ("lonely", ["ひとり", "独り", "孤独", "さみ", "誰も", "🥺"]) (by decide) (by decide))
  have hscores : scoresOf text =
      [("joy", 0),
       ("grateful", tagBaseScore (normText text) ["ありがとう", "感謝", "助か", "サンキュー", "🙏"]),
       ("sad", 0), ("angry", 0), ("anxious", 0), ("tired", 0), ("calm", 0),
       ("excited", 0), ("lonely", 0)] := by
    simp only [scoresOf, EMO_LEXICON, List.map_cons, List.map_nil,
      hJ, hS, hA, hX, hT, hC, hE, hL, hnex, hnell]
    norm_num
  have hsp : argmaxFirst (scoresOf text) =
      ("grateful", tagBaseScore (normText text) ["ありがとう", "感謝", "助か", "サンキュー", "🙏"]) := by
    rw [hscores]
    exact argmaxFirst_split [("joy", 0)] _
      [("sad", 0), ("angry", 0), ("anxious", 0), ("tired", 0), ("calm", 0),
       ("excited", 0), ("lonely", 0)]
      (by intro x hx; fin_cases hx; simpa using hG)
      (by intro x hx; fin_cases hx <;> simp)
  simp only [detect_emotion, if_neg hne, hsp]
  rw [if_pos (by omega)]

/-- Witness for C5: the concrete input ありがとう、助かりました！ is
scored grateful. -/
theorem grateful_only_detects_grateful_witness :
    detect_emotion "ありがとう、助かりました！" = some "grateful" :=
  grateful_only_detects_grateful "ありがとう、助かりました！"
    (by decide) (by decide) (by decide) (by decide)

/-- Claim C7 counterexample: when every attempt fails, `http_get_json`
performs 3 attempts but also 3 backoff sleeps — one after the final
failed attempt as well — so it does not sleep only between consecutive
attempts (which would give 3 - 1 = 2 sleeps). -/
theorem http_backoff_counterexample :
    (http_get_json (fun _ _ => (none : Option Nat))).2.1 = 3
    ∧ (http_get_json (fun _ _ => (none : Option Nat))).2.2 = 3
    ∧ ¬ (http_get_json (fun _ _ => (none : Option Nat))).2.2 = 3 - 1 := by
  decide

/-- Claim C7 (amended): `http_get_json` attempts the underlying call at
most `RETRY + 1 = 3` times with the fixed timeout `HTTP_TIMEOUT = 6` on
each attempt, stops at the first success — returning it after having
slept once per preceding failed attempt — and after exhausting all
attempts returns unavailable having slept once after every failed
attempt, the final one included (3 sleeps, not 2). -/
theorem http_get_json_spec {J : Type} (g : Nat → Nat → Option J) :
    HTTP_TIMEOUT = 6
    ∧ RETRY + 1 = 3
    ∧ (http_get_json g).2.1 ≤ RETRY + 1
    ∧ (∀ i r, i < RETRY + 1 → (∀ k, k < i → g k HTTP_TIMEOUT = none) →
        g i HTTP_TIMEOUT = some r → http_get_json g = (some r, i + 1, i))
    ∧ ((∀ i, i < RETRY + 1 → g i HTTP_TIMEOUT = none) →
        http_get_json g = (none, RETRY + 1, RETRY + 1)) := by
  refine ⟨rfl, rfl, ?_, ?_, ?_⟩
  · show (httpLoop g 3 0).2.1 ≤ 3
    rcases h0 : g 0 HTTP_TIMEOUT with _ | r0 <;>
      rcases h1 : g 1 HTTP_TIMEOUT with _ | r1 <;>
        rcases h2 : g 2 HTTP_TIMEOUT with _ | r2 <;>
          simp [httpLoop, h0, h1, h2]
  · intro i r hi hk hs
    have hi3 : i < 3 := by simpa [RETRY] using hi
    show httpLoop g 3 0 = (some r, i + 1, i)
    interval_cases i
    · simp [httpLoop, hs]
    · have h0 := hk 0 (by omega)
      simp [httpLoop, h0, hs]
    · have h0 := hk 0 (by omega)
      have h1 := hk 1 (by omega)
      simp [httpLoop, h0, h1, hs]
  · intro hall
    have h0 := hall 0 (by decide)
    have h1 := hall 1 (by decide)
    have h2 := hall 2 (by decide)
    show httpLoop g 3 0 = (none, 3, 3)
    simp [httpLoop, h0, h1, h2]

/-- Witness for the amended C7: an oracle failing once then succeeding
makes exactly 2 attempts with 1 sleep and returns the success. -/
theorem http_get_json_spec_witness :
    http_get_json (fun i _ => if i = 1 then some 7 else none) = (some 7, 2, 1) :=
  (http_get_json_spec (fun i _ => if i = 1 then some 7 else none)).2.2.2.1 1 7
    (by decide) (fun k hk => by interval_cases k; rfl) rfl

/-- Helper: a weather call that invokes the fetch with a successful
result returns it and stores it under the rounded key at time `now`. -/
theorem get_weather_fetch (cache : WCache) (lat lon : ℚ) (now : Int) (v : WeatherRes)
    (h : (get_weather_by_latlon true now cache lat lon (some v)).2.2 = true) :
    get_weather_by_latlon true now cache lat lon (some v) =
      (some v, fun k => if k = wkey lat lon then some (now, v) else cache k, true) := by
  rcases hc : cache (wkey lat lon) with _ | ⟨t0, v0⟩
  · simp [get_weather_by_latlon, hc]
  · by_cases hl : now - t0 < WEATHER_TTL
    · simp [get_weather_by_latlon, hc, hl] at h
    · simp [get_weather_by_latlon, hc, hl]

/-- Helper: a weather call finding a live entry returns it unchanged
without fetching. -/
theorem get_weather_hit (cache : WCache) (lat lon : ℚ) (now t : Int) (v : WeatherRes)
    (f : Option WeatherRes) (hc : cache (wkey lat lon) = some (t, v))
    (h : now - t < WEATHER_TTL) :
    get_weather_by_latlon true now cache lat lon f = (some v, cache, false) := by
  simp [get_weather_by_latlon, hc, h]

/-- Helper: a geocode call that invokes the fetch with a nonempty result
array returns the first candidate and stores it under the folded key. -/
theorem geocode_fetch (cache : GCache) (q : String) (now : Int) (top : GeoItem)
    (rest : List GeoItem)
    (h : (geocode_city true now cache q (some (top :: rest))).2.2 = true) :
    geocode_city true now cache q (some (top :: rest)) =
      (some ⟨top.lat, top.lon, top.name.getD q⟩,
        fun s => if s = gkey q then some (now, ⟨top.lat, top.lon, top.name.getD q⟩)
          else cache s, true) := by
  rcases hc : cache (gkey q) with _ | ⟨t0, v0⟩
  · simp [geocode_city, hc]
  · by_cases hl : now - t0 < GEOCODE_TTL
    · simp [geocode_city, hc, hl] at h
    · simp [geocode_city, hc, hl]

/-- Helper: a geocode call finding a live entry returns it unchanged
without fetching. -/
theorem geocode_hit (cache : GCache) (q : String) (now t : Int) (v : GeoRes)
    (f : Option (List GeoItem)) (hc : cache (gkey q) = some (t, v))
    (h : now - t < GEOCODE_TTL) :
    geocode_city true now cache q f = (some v, cache, false) := by
  simp [geocode_city, hc, h]

/-- Claim C1: with the provider credential configured, a second call to
a cache-fronted fetch made while the entry written by a first (fetching,
successful) call is live — second time minus first time strictly below
the TTL — returns the cached value without invoking the underlying
fetch; and any call finding an entry whose age has reached the TTL
invokes the underlying fetch again.  Stated for both
`get_weather_by_latlon` (10-minute TTL) and `geocode_city` (24-hour
TTL). -/
theorem cache_ttl_spec :
    (∀ (cache : WCache) (lat lon : ℚ) (t1 t2 : Int) (v : WeatherRes)
        (f2 : Option WeatherRes),
      (get_weather_by_latlon true t1 cache lat lon (some v)).2.2 = true →
      t2 - t1 < WEATHER_TTL →
      get_weather_by_latlon true t2
          (get_weather_by_latlon true t1 cache lat lon (some v)).2.1 lat lon f2
        = (some v, (get_weather_by_latlon true t1 cache lat lon (some v)).2.1, false))
    ∧ (∀ (cache : WCache) (lat lon : ℚ) (now t : Int) (v : WeatherRes)
        (f : Option WeatherRes),
      cache (wkey lat lon) = some (t, v) → WEATHER_TTL ≤ now - t →
      (get_weather_by_latlon true now cache lat lon f).2.2 = true)
    ∧ (∀ (cache : GCache) (q : String) (t1 t2 : Int) (top : GeoItem)
        (rest : List GeoItem) (f2 : Option (List GeoItem)),
      (geocode_city true t1 cache q (some (top :: rest))).2.2 = true →
      t2 - t1 < GEOCODE_TTL →
      geocode_city true t2
          (geocode_city true t1 cache q (some (top :: rest))).2.1 q f2
        = ((geocode_city true t1 cache q (some (top :: rest))).1,
           (geocode_city true t1 cache q (some (top :: rest))).2.1, false))
    ∧ (∀ (cache : GCache) (q : String) (now t : Int) (v : GeoRes)
        (f : Option (List GeoItem)),
      cache (gkey q) = some (t, v) → GEOCODE_TTL ≤ now - t →
      (geocode_city true now cache q f).2.2 = true) := by
  refine ⟨?_, ?_, ?_, ?_⟩
  · intro cache lat lon t1 t2 v f2 hinv httl
    rw [get_weather_fetch cache lat lon t1 v hinv]
    exact get_weather_hit _ lat lon t2 t1 v f2 (by simp) httl
  · intro cache lat lon now t v f hc httl
    have h : ¬ (now - t < WEATHER_TTL) := by omega
    rcases f with _ | r <;> simp [get_weather_by_latlon, hc, h]
  · intro cache q t1 t2 top rest f2 hinv httl
    rw [geocode_fetch cache q t1 top rest hinv]
    exact geocode_hit _ q t2 t1 _ f2 (by simp) httl
  · intro cache q now t v f hc httl
    have h : ¬ (now - t < GEOCODE_TTL) := by omega
    rcases f with _ | ⟨_ | ⟨a, l⟩⟩ <;> simp [geocode_city, hc, h]

/-- Witness for C1: a successful fetch at time 0 into an empty weather
cache is served from the cache at time 1 without fetching. -/
theorem cache_ttl_spec_witness :
    get_weather_by_latlon true 1
        (get_weather_by_latlon true 0 (fun _ => none) 0 0
          (some ⟨"clear", "sunny", 20, "X"⟩)).2.1 0 0 none
      = (some ⟨"clear", "sunny", 20, "X"⟩,
         (get_weather_by_latlon true 0 (fun _ => none) 0 0
           (some ⟨"clear", "sunny", 20, "X"⟩)).2.1, false) :=
  cache_ttl_spec.1 (fun _ => none) 0 0 0 1 ⟨"clear", "sunny", 20, "X"⟩ none rfl (by decide)

/-- Claim C2: a cache-fronted fetch whose underlying fetch is invoked
and fails returns unavailable and leaves the cache exactly as it was (no
negative caching), and any later call still invokes the underlying fetch
again rather than waiting out a TTL.  Stated for both
`get_weather_by_latlon` and `geocode_city`. -/
theorem failed_fetch_spec :
    (∀ (cache : WCache) (lat lon : ℚ) (now : Int),
      (get_weather_by_latlon true now cache lat lon none).2.2 = true →
      get_weather_by_latlon true now cache lat lon none = (none, cache, true))
    ∧ (∀ (cache : WCache) (lat lon : ℚ) (now now2 : Int) (f2 : Option WeatherRes),
      now ≤ now2 →
      (get_weather_by_latlon true now cache lat lon none).2.2 = true →
      (get_weather_by_latlon true now2 cache lat lon f2).2.2 = true)
    ∧ (∀ (cache : GCache) (q : String) (now : Int),
      (geocode_city true now cache q none).2.2 = true →
      geocode_city true now cache q none = (none, cache, true))
    ∧ (∀ (cache : GCache) (q : String) (now now2 : Int) (f2 : Option (List GeoItem)),
      now ≤ now2 →
      (geocode_city true now cache q none).2.2 = true →
      (geocode_city true now2 cache q f2).2.2 = true) := by
  refine ⟨?_, ?_, ?_, ?_⟩
  · intro cache lat lon now hinv
    rcases hc : cache (wkey lat lon) with _ | ⟨t0, v0⟩
    · simp [get_weather_by_latlon, hc]
    · by_cases hl : now - t0 < WEATHER_TTL
      · simp [get_weather_by_latlon, hc, hl] at hinv
      · simp [get_weather_by_latlon, hc, hl]
  · intro cache lat lon now now2 f2 hle hinv
    rcases hc : cache (wkey lat lon) with _ | ⟨t0, v0⟩
    · rcases f2 with _ | r <;> simp [get_weather_by_latlon, hc]
    · by_cases hl : now - t0 < WEATHER_TTL
      · simp [get_weather_by_latlon, hc, hl] at hinv
      · have h2 : ¬ (now2 - t0 < WEATHER_TTL) := by omega
        rcases f2 with _ | r <;> simp [get_weather_by_latlon, hc, h2]
  · intro cache q now hinv
    rcases hc : cache (gkey q) with _ | ⟨t0, v0⟩
    · simp [geocode_city, hc]
    · by_cases hl : now - t0 < GEOCODE_TTL
      · simp [geocode_city, hc, hl] at hinv
      · simp [geocode_city, hc, hl]
  · intro cache q now now2 f2 hle hinv
    rcases hc : cache (gkey q) with _ | ⟨t0, v0⟩
    · rcases f2 with _ | ⟨_ | ⟨a, l⟩⟩ <;> simp [geocode_city, hc]
    · by_cases hl : now - t0 < GEOCODE_TTL
      · simp [geocode_city, hc, hl] at hinv
      · have h2 : ¬ (now2 - t0 < GEOCODE_TTL) := by omega
        rcases f2 with _ | ⟨_ | ⟨a, l⟩⟩ <;> simp [geocode_city, hc, h2]

/-- Witness for C2: a failed fetch into an empty weather cache returns
unavailable with the cache untouched. -/
theorem failed_fetch_spec_witness :
    get_weather_by_latlon true 0 (fun _ => none : WCache) 0 0 none
      = (none, (fun _ => none : WCache), true) :=
  failed_fetch_spec.1 (fun _ => none) 0 0 0 rfl

/-- Claim C8: on a loc-prefixed command, a geocode lookup returning no
match produces the not-found guidance reply with the store unchanged and
no save performed; a successful lookup persists the resolved location
for the user and replies with a confirmation naming the resolved
city. -/
theorem loc_command_spec (rawText uid : String) (store : Store) (hasApiKey : Bool)
    (now : Int) (gcache : GCache) (fetched : Option (List GeoItem))
    (hloc : isLocCmd rawText = true) :
    ((geocode_city hasApiKey now gcache (locQuery rawText) fetched).1 = none →
      handle_loc rawText uid store hasApiKey now gcache fetched =
        some ("位置を見つけられませんでした。例：`loc 東京` と送ってください。", store, false,
          (geocode_city hasApiKey now gcache (locQuery rawText) fetched).2.1))
    ∧ (∀ geo, (geocode_city hasApiKey now gcache (locQuery rawText) fetched).1 = some geo →
      handle_loc rawText uid store hasApiKey now gcache fetched =
        some ("📍 場所を「" ++ geo.city ++ "」に設定しました。",
          fun u => if u = uid then some ⟨geo.lat, geo.lon, geo.city⟩ else store u, true,
          (geocode_city hasApiKey now gcache (locQuery rawText) fetched).2.1)) := by
  constructor
  · intro h
    simp only [handle_loc, if_pos hloc, h]
  · intro geo h
    simp only [handle_loc, if_pos hloc, h]

/-- Witness for C8: the scenario loc Nonexistentplacexyz with a
working geocode provider returning no matches yields the not-found
guidance with the store unchanged and unsaved. -/
theorem loc_command_spec_witness :
    handle_loc "loc Nonexistentplacexyz" "u1" emptyStore true 0 (fun _ => none) (some []) =
      some ("位置を見つけられませんでした。例：`loc 東京` と送ってください。", emptyStore, false,
        (geocode_city true 0 (fun _ => none) (locQuery "loc Nonexistentplacexyz") (some [])).2.1) :=
  (loc_command_spec "loc Nonexistentplacexyz" "u1" emptyStore true 0 (fun _ => none) (some [])
    (by decide)).1 rfl
